import Mathlib

/-!
Verification of the per-connection session layer of ractor_cluster
(ractor_cluster/src/net/session.rs): the exact-N-bytes read primitive,
the length-delimited framing written by the SessionWriter actor, the
two-state SessionReader machine, and the Session supervision policy.

The Rust code is shallowly embedded: each actor handler becomes a pure
function from its message, its state, and an environment recording the
outcomes of the IO operations it performs, to a result recording the IO
operations attempted, the messages cast, the stop reason (if any), and
the panics (if any). Machine integers are modelled as Nat with explicit
division/modulus where truncation matters.
-/

namespace RactorSession

/-- Model of tokio::io::ErrorKind restricted to what the code inspects:
the reader dispatches on whether the kind is UnexpectedEof; every other
kind is carried opaquely as a tag. -/
inductive ErrorKind
  | unexpectedEof
  | other (tag : String)
deriving DecidableEq, Repr

/-- Model of tokio::io::Error: a kind plus a message, matching the
tokio::io::Error::new(kind, msg) constructor used at session.rs lines 35-38. -/
structure IOError where
  kind : ErrorKind
  message : String
deriving DecidableEq, Repr

/-- The distinguished error constructed by read_n_bytes on a zero-byte read:
tokio::io::Error::new(ErrorKind::UnexpectedEof, "EOF") (session.rs lines 35-38). -/
def eofError : IOError := ⟨.unexpectedEof, "EOF"⟩

/-- Model of crate::protocol::NetworkMessage: an opaque value carrying its
length-delimited encoding. The repository treats the payload schema and its
prost codec as external; only the encoded byte sequence is relevant here. -/
structure NetworkMessage where
  encoded : List Nat
deriving DecidableEq, Repr

/-- Model of prost Message::encode_length_delimited_to_vec (session.rs line 263). -/
def encode_length_delimited_to_vec (msg : NetworkMessage) : List Nat :=
  msg.encoded

/-- One read call observed by the read_n_bytes loop: either the source
delivers a chunk of bytes (a zero-length chunk models a read returning
Ok(0), i.e. EOF), or the read itself fails with an io error. -/
inductive ReadEvent
  | chunk (bs : List Nat)
  | ioErr (e : IOError)
deriving DecidableEq, Repr

/-- Possible outcomes of read_n_bytes: the Ok buffer, the Err error, or
blocked (the source trace ran out, i.e. the real read would suspend and
the call never completes). -/
inductive ReadOutcome
  | success (buf : List Nat)
  | failure (e : IOError)
  | blocked
deriving DecidableEq, Repr

/-- The accumulation loop of read_n_bytes (session.rs lines 31-42):
while c_len < len, perform one read; a zero-byte read yields the
distinguished eofError; any read error is returned as is; otherwise the
chunk is appended at offset c_len and the loop continues. A read never
delivers more bytes than the remaining capacity len - c_len (the Read
contract); traces violating that bound correspond to no real execution. -/
def readLoop : List ReadEvent → Nat → Nat → List Nat → ReadOutcome
  | events, len, c_len, buf =>
    if c_len < len then
      match events with
      | [] => .blocked
      | .ioErr e :: _ => .failure e
      | .chunk bs :: rest =>
        if bs.length = 0 then .failure eofError
        else readLoop rest len (c_len + bs.length) (buf ++ bs)
    else .success buf

/-- Model of read_n_bytes (session.rs lines 27-43). The function first
awaits stream.readable() and propagates its error (line 30), then runs
the accumulation loop with c_len = 0 and an empty buffer. -/
def read_n_bytes (readable : Except IOError Unit) (events : List ReadEvent)
    (len : Nat) : ReadOutcome :=
  match readable with
  | .error e => .failure e
  | .ok _ => readLoop events len 0 []

/-- Model of (length as u64).to_be_bytes() (session.rs line 265): the eight
big-endian base-256 digits; the as-u64 cast truncates modulo 2 ^ 64, which
the digit formulas realize directly. -/
def u64ToBeBytes (n : Nat) : List Nat :=
  [n / 2 ^ 56 % 256, n / 2 ^ 48 % 256, n / 2 ^ 40 % 256, n / 2 ^ 32 % 256,
   n / 2 ^ 24 % 256, n / 2 ^ 16 % 256, n / 2 ^ 8 % 256, n % 256]

/-- Model of u64::from_be_bytes applied to the 8-byte buffer (session.rs
line 350): big-endian base-256 interpretation. -/
def u64FromBeBytes (bs : List Nat) : Nat :=
  bs.foldl (fun acc b => acc * 256 + b) 0

/-- One IO step attempted by the SessionWriter handler, in order: the
writable() wait (succeeding or panicking via unwrap), a write_all that
succeeded appending exactly the given bytes, a write_all that failed, the
final flush (succeeding, or failing which panics via unwrap). -/
inductive WriterEvent
  | waitedWritable
  | waitFailed (e : IOError)
  | wrote (bs : List Nat)
  | writeFailed (bs : List Nat) (e : IOError)
  | flushed
  | flushFailed (e : IOError)
deriving DecidableEq, Repr

/-- Outcomes the environment assigns to the four IO operations the
SessionWriter handler can perform on the write half of the stream. -/
structure WriterEnv where
  writable : Except IOError Unit
  lengthWrite : Except IOError Unit
  payloadWrite : Except IOError Unit
  flush : Except IOError Unit

/-- Result of one SessionWriter handler invocation: the IO steps attempted
in order, the stop reason passed to myself.stop (if called), the error on
which an unwrap panicked (if any), and whether state.writer is still
present afterwards. -/
structure WriterResult where
  events : List WriterEvent
  stopReason : Option String
  panicked : Option IOError
  writerOpen : Bool
deriving DecidableEq, Repr

namespace SessionWriter

/-- Model of SessionWriter::handle on WriteObject(msg) (session.rs lines
252-287). With an open writer: writable().await.unwrap(); encode the
message; write the 8 big-endian length bytes; on length-write error log a
warning and do nothing further; otherwise write the payload; on payload
error stop with "channel_closed"; otherwise flush().unwrap(). With no
writer, the message is a no-op. -/
def handle (msg : NetworkMessage) (writerOpen : Bool) (env : WriterEnv) :
    WriterResult :=
  if writerOpen then
    match env.writable with
    | .error e => ⟨[.waitFailed e], none, some e, true⟩
    | .ok _ =>
      let encoded_data := encode_length_delimited_to_vec msg
      let length_bytes := u64ToBeBytes encoded_data.length
      match env.lengthWrite with
      | .error e => ⟨[.waitedWritable, .writeFailed length_bytes e], none, none, true⟩
      | .ok _ =>
        match env.payloadWrite with
        | .error e =>
          ⟨[.waitedWritable, .wrote length_bytes, .writeFailed encoded_data e],
            some "channel_closed", none, true⟩
        | .ok _ =>
          match env.flush with
          | .error e =>
            ⟨[.waitedWritable, .wrote length_bytes, .wrote encoded_data, .flushFailed e],
              none, some e, true⟩
          | .ok _ =>
            ⟨[.waitedWritable, .wrote length_bytes, .wrote encoded_data, .flushed],
              none, none, true⟩
  else ⟨[], none, none, false⟩

end SessionWriter

/-- Bytes appended to the stream by the fully successful write_all calls of
a writer event trace. A failed write_all may leave a partial prefix of its
buffer on the wire; no claim here depends on those partial bytes. -/
def writtenBytes (events : List WriterEvent) : List Nat :=
  events.foldr
    (fun ev acc =>
      match ev with
      | .wrote bs => bs ++ acc
      | _ => acc)
    []

/-- Model of ractor SupervisionEvent as consumed by Session (session.rs
lines 181-205): a child panicked with a panic message, a child terminated
with an optional exit reason, or any other supervision event (the catch-all
arm). Actor identities are modelled by their numeric ids. -/
inductive SupervisionEvent
  | actorPanicked (childId : Nat) (panicInfo : String)
  | actorTerminated (childId : Nat) (exitReason : Option String)
  | otherEvent
deriving DecidableEq, Repr

/-- Which child the Session log branches identify. -/
inductive ChildKind
  | reader
  | writer
  | unknown
deriving DecidableEq, Repr

/-- The id comparisons of session.rs lines 183-189 and 193-199: reader
first, then writer, else unknown. -/
def classifyChild (readerId writerId childId : Nat) : ChildKind :=
  if childId = readerId then .reader
  else if childId = writerId then .writer
  else .unknown

/-- Result of Session::handle_supervisor_evt: which child was logged about
(none for the catch-all arm) and the stop reason passed to myself.stop. -/
structure SupervisorAction where
  loggedChild : Option ChildKind
  stopReason : Option String
deriving DecidableEq, Repr

namespace Session

/-- Model of Session::handle_supervisor_evt (session.rs lines 173-207):
ActorPanicked logs the child identity and stops with "child_panic";
ActorTerminated logs and stops with "child_terminate"; every other event
does nothing. -/
def handle_supervisor_evt (readerId writerId : Nat) (evt : SupervisionEvent) :
    SupervisorAction :=
  match evt with
  | .actorPanicked childId _ =>
    ⟨some (classifyChild readerId writerId childId), some "child_panic"⟩
  | .actorTerminated childId _ =>
    ⟨some (classifyChild readerId writerId childId), some "child_terminate"⟩
  | .otherEvent => ⟨none, none⟩

end Session

/-- The SessionReader self-messages (session.rs lines 297-303): wait for
the 8-byte length header, or read a payload of the given length. -/
inductive SessionReaderMessage
  | waitForObject
  | readObject (length : Nat)
deriving DecidableEq, Repr

/-- The Session messages (session.rs lines 91-97); the reader casts
ObjectAvailable to the session on a decoded frame. -/
inductive SessionMessage
  | send (msg : NetworkMessage)
  | objectAvailable (msg : NetworkMessage)
deriving DecidableEq, Repr

/-- Outcomes the environment assigns to the one read_n_bytes call a
SessionReader handler invocation performs: the readable() wait inside
read_n_bytes and the trace of read calls. -/
structure ReaderEnv where
  readable : Except IOError Unit
  events : List ReadEvent

/-- Result of one SessionReader handler invocation: the messages cast to
itself in order, the messages cast to the Session, the stop reason passed
to myself.stop (if called), and whether state.reader is still present
afterwards. -/
structure ReaderResult where
  selfCasts : List SessionReaderMessage
  sessionCasts : List SessionMessage
  stopReason : Option String
  readerOpen : Bool
deriving DecidableEq, Repr

namespace SessionReader

/-- Model of SessionReader::handle (session.rs lines 339-415), with the
external prost decoder passed as the decode parameter. WaitForObject with
an open reader: read 8 bytes; on success cast ReadObject(length) and
return; on an UnexpectedEof-kind error drop the reader, stop with
"channel_closed", and fall through to the trailing WaitForObject cast
(line 368, no return in that arm); on any other error fall through to the
trailing WaitForObject cast. ReadObject(length) with an open reader: read
length bytes; on success decode, casting ObjectAvailable on decode success
and only logging on decode failure, then cast WaitForObject; on an
UnexpectedEof-kind error drop the reader, stop with "channel_closed", and
return (line 398); on any other error cast WaitForObject. With no reader,
cast WaitForObject. When the read would suspend forever the invocation
never completes, modelled as none. -/
def handle (decode : List Nat → Option NetworkMessage) :
    SessionReaderMessage → Bool → ReaderEnv → Option ReaderResult
  | .waitForObject, true, env =>
    match read_n_bytes env.readable env.events 8 with
    | .blocked => none
    | .success buf => some ⟨[.readObject (u64FromBeBytes buf)], [], none, true⟩
    | .failure e =>
      if e.kind = .unexpectedEof then
        some ⟨[.waitForObject], [], some "channel_closed", false⟩
      else
        some ⟨[.waitForObject], [], none, true⟩
  | .readObject length, true, env =>
    match read_n_bytes env.readable env.events length with
    | .blocked => none
    | .success buf =>
      match decode buf with
      | some msg => some ⟨[.waitForObject], [.objectAvailable msg], none, true⟩
      | none => some ⟨[.waitForObject], [], none, true⟩
    | .failure e =>
      if e.kind = .unexpectedEof then
        some ⟨[], [], some "channel_closed", false⟩
      else
        some ⟨[.waitForObject], [], none, true⟩
  | .waitForObject, false, _ => some ⟨[.waitForObject], [], none, false⟩
  | .readObject _, false, _ => some ⟨[.waitForObject], [], none, false⟩

end SessionReader

/-- Whether the read_n_bytes loop, run over the given event trace with the
given target and already-accumulated count, encounters a read that returns
zero bytes before the target is reached. This mirrors exactly which reads
the loop performs. -/
def hitsEmptyRead : List ReadEvent → Nat → Nat → Bool
  | events, len, c_len =>
    if c_len < len then
      match events with
      | [] => false
      | .ioErr _ :: _ => false
      | .chunk bs :: rest =>
        if bs.length = 0 then true else hitsEmptyRead rest len (c_len + bs.length)
    else false


theorem u64_roundtrip (n : Nat) (h : n < 2 ^ 64) :
    u64FromBeBytes (u64ToBeBytes n) = n := by
  simp [u64FromBeBytes, u64ToBeBytes, List.foldl]
  omega

theorem readLoop_done (events : List ReadEvent) (len c buf) (h : ¬ c < len) :
    readLoop events len c buf = .success buf := by
  unfold readLoop
  rw [if_neg h]

theorem readLoop_nil (len c buf) (h : c < len) :
    readLoop [] len c buf = .blocked := by
  unfold readLoop
  rw [if_pos h]

theorem readLoop_err (e : IOError) (rest : List ReadEvent) (len c buf) (h : c < len) :
    readLoop (.ioErr e :: rest) len c buf = .failure e := by
  unfold readLoop
  rw [if_pos h]

theorem readLoop_chunk (bs : List Nat) (rest : List ReadEvent) (len c buf) (h : c < len) :
    readLoop (.chunk bs :: rest) len c buf =
      if bs.length = 0 then .failure eofError
      else readLoop rest len (c + bs.length) (buf ++ bs) := by
  conv_lhs => rw [readLoop]
  rw [if_pos h]

theorem hitsEmptyRead_done (events : List ReadEvent) (len c) (h : ¬ c < len) :
    hitsEmptyRead events len c = false := by
  unfold hitsEmptyRead
  rw [if_neg h]

theorem hitsEmptyRead_nil (len c) (h : c < len) :
    hitsEmptyRead [] len c = false := by
  unfold hitsEmptyRead
  rw [if_pos h]

theorem hitsEmptyRead_err (e : IOError) (rest : List ReadEvent) (len c) (h : c < len) :
    hitsEmptyRead (.ioErr e :: rest) len c = false := by
  unfold hitsEmptyRead
  rw [if_pos h]

theorem hitsEmptyRead_chunk (bs : List Nat) (rest : List ReadEvent) (len c) (h : c < len) :
    hitsEmptyRead (.chunk bs :: rest) len c =
      if bs.length = 0 then true else hitsEmptyRead rest len (c + bs.length) := by
  conv_lhs => rw [hitsEmptyRead]
  rw [if_pos h]

theorem readLoop_chunks (css : List (List Nat)) :
    ∀ len c_len buf, (∀ cs ∈ css, cs ≠ []) → c_len + css.flatten.length = len →
      readLoop (css.map .chunk) len c_len buf = .success (buf ++ css.flatten) := by
  induction css with
  | nil =>
    intro len c buf _ hlen
    simp only [List.flatten_nil, List.length_nil, Nat.add_zero] at hlen
    rw [List.map_nil, readLoop_done _ _ _ _ (by omega)]
    simp
  | cons bs rest ih =>
    intro len c buf hne hlen
    have hbs : bs ≠ [] := hne bs (by simp)
    have hbl : 0 < bs.length := List.length_pos.mpr hbs
    have hjl : (bs :: rest).flatten.length = bs.length + rest.flatten.length := by
      simp [List.flatten_cons]
    have hc : c < len := by omega
    rw [List.map_cons, readLoop_chunk _ _ _ _ _ hc, if_neg (by omega),
      ih len (c + bs.length) (buf ++ bs)
        (fun cs hcs => hne cs (List.mem_cons_of_mem _ hcs)) (by omega),
      List.append_assoc, List.flatten_cons]

theorem readLoop_eof_iff (events : List ReadEvent) :
    ∀ len c_len buf,
      (∀ e, ReadEvent.ioErr e ∈ events → e.kind ≠ ErrorKind.unexpectedEof) →
      (readLoop events len c_len buf = .failure eofError ↔
        hitsEmptyRead events len c_len = true) := by
  induction events with
  | nil =>
    intro len c buf _
    by_cases hc : c < len
    · rw [readLoop_nil _ _ _ hc, hitsEmptyRead_nil _ _ hc]
      simp
    · rw [readLoop_done _ _ _ _ hc, hitsEmptyRead_done _ _ _ hc]
      simp
  | cons ev rest ih =>
    intro len c buf h
    by_cases hc : c < len
    · cases ev with
      | ioErr e =>
        have hke : e.kind ≠ ErrorKind.unexpectedEof := h e (by simp)
        rw [readLoop_err _ _ _ _ _ hc, hitsEmptyRead_err _ _ _ _ hc]
        constructor
        · intro hf
          injection hf with h0
          exact absurd (by rw [h0]; rfl) hke
        · intro hfalse
          exact absurd hfalse (by simp)
      | chunk bs =>
        rw [readLoop_chunk _ _ _ _ _ hc, hitsEmptyRead_chunk _ _ _ _ hc]
        by_cases hb : bs.length = 0
        · rw [if_pos hb, if_pos hb]
          simp
        · rw [if_neg hb, if_neg hb]
          exact ih len (c + bs.length) (buf ++ bs)
            (fun e he => h e (List.mem_cons_of_mem _ he))
    · rw [readLoop_done _ _ _ _ hc, hitsEmptyRead_done _ _ _ hc]
      simp
  
theorem readLoop_failure_source (events : List ReadEvent) :
    ∀ len c_len buf e, readLoop events len c_len buf = .failure e →
      e = eofError ∨ ReadEvent.ioErr e ∈ events := by
  induction events with
  | nil =>
    intro len c buf e hf
    by_cases hc : c < len
    · rw [readLoop_nil _ _ _ hc] at hf
      exact absurd hf (by simp)
    · rw [readLoop_done _ _ _ _ hc] at hf
      exact absurd hf (by simp)
  | cons ev rest ih =>
    intro len c buf e hf
    by_cases hc : c < len
    · cases ev with
      | ioErr e0 =>
        rw [readLoop_err _ _ _ _ _ hc] at hf
        injection hf with h0
        right
        rw [h0]
        exact List.mem_cons_self _ _
      | chunk bs =>
        rw [readLoop_chunk _ _ _ _ _ hc] at hf
        by_cases hb : bs.length = 0
        · rw [if_pos hb] at hf
          injection hf with h0
          exact Or.inl h0.symm
        · rw [if_neg hb] at hf
          rcases ih len (c + bs.length) (buf ++ bs) e hf with h1 | h1
          · exact Or.inl h1
          · exact Or.inr (List.mem_cons_of_mem _ h1)
    · rw [readLoop_done _ _ _ _ hc] at hf
      exact absurd hf (by simp)

/-- C1: when WriteObject(msg) completes without any write error (all four IO
operations succeed), the bytes appended to the stream are exactly the 8-byte
big-endian u64 prefix equal to the length of the length-delimited encoding of
msg, immediately followed by exactly those encoded bytes; the stream is then
flushed and nothing else is written (the event trace is exactly the wait, the
two writes, and the flush); the writer neither stops nor panics. -/
theorem writer_frame_format (msg : NetworkMessage)
    (hlen : (encode_length_delimited_to_vec msg).length < 2 ^ 64) :
    SessionWriter.handle msg true ⟨.ok (), .ok (), .ok (), .ok ()⟩ =
      ⟨[.waitedWritable, .wrote (u64ToBeBytes (encode_length_delimited_to_vec msg).length),
        .wrote (encode_length_delimited_to_vec msg), .flushed], none, none, true⟩
    ∧ writtenBytes (SessionWriter.handle msg true ⟨.ok (), .ok (), .ok (), .ok ()⟩).events =
        u64ToBeBytes (encode_length_delimited_to_vec msg).length
          ++ encode_length_delimited_to_vec msg
    ∧ (u64ToBeBytes (encode_length_delimited_to_vec msg).length).length = 8
    ∧ u64FromBeBytes (u64ToBeBytes (encode_length_delimited_to_vec msg).length) =
        (encode_length_delimited_to_vec msg).length
    ∧ ∀ b ∈ u64ToBeBytes (encode_length_delimited_to_vec msg).length, b < 256 := by
  refine ⟨rfl, ?_, rfl, u64_roundtrip _ hlen, ?_⟩
  · simp [writtenBytes, SessionWriter.handle]
  · intro b hb
    simp only [u64ToBeBytes, List.mem_cons, List.not_mem_nil, or_false] at hb
    rcases hb with h | h | h | h | h | h | h | h <;> subst h <;> omega

/-- C1 witness: the all-success run at the concrete message whose encoding
is [1, 2, 3]. -/
theorem writer_frame_format_witness :
    SessionWriter.handle ⟨[1, 2, 3]⟩ true ⟨.ok (), .ok (), .ok (), .ok ()⟩ =
      ⟨[.waitedWritable, .wrote (u64ToBeBytes 3), .wrote [1, 2, 3], .flushed],
        none, none, true⟩ :=
  (writer_frame_format ⟨[1, 2, 3]⟩ (by decide)).1

/-- C2 counterexample: a zero-length request does not succeed
unconditionally: read_n_bytes awaits stream.readable() and propagates its
error before checking the loop condition (session.rs line 30), so with a
failing readiness wait the request N = 0 returns that error instead of the
empty buffer. -/
theorem read_n_bytes_zero_len_counterexample :
    read_n_bytes (.error ⟨.other "io", "not ready"⟩) [] 0 =
      .failure ⟨.other "io", "not ready"⟩
    ∧ read_n_bytes (.error ⟨.other "io", "not ready"⟩) [] 0 ≠ .success [] := by
  decide

/-- C2 (amended): read_n_bytes is chunk independent: whenever the source
delivers the first N bytes of a stream S across any sequence of nonempty
read chunks, the call succeeds with exactly those first N bytes, whatever
the split; and a zero-length request performs no reads and succeeds with
the empty buffer whenever the initial readiness wait succeeds (the code
awaits readable() even for N = 0, so the unconditional form fails, see the
counterexample). -/
theorem read_n_bytes_chunk_independence (S : List Nat) (css : List (List Nat)) (N : Nat)
    (hjoin : css.flatten = S.take N) (hne : ∀ cs ∈ css, cs ≠ []) (hN : N ≤ S.length) :
    read_n_bytes (.ok ()) (css.map .chunk) N = .success (S.take N)
    ∧ ∀ events, read_n_bytes (.ok ()) events 0 = .success [] := by
  constructor
  · have hflen : css.flatten.length = N := by
      rw [hjoin, List.length_take]
      omega
    unfold read_n_bytes
    rw [readLoop_chunks css N 0 [] hne (by omega), List.nil_append, hjoin]
  · intro events
    unfold read_n_bytes
    rw [readLoop_done _ _ _ _ (by omega)]

/-- C2 witness: the stream [1, 2, 3] delivered as chunks [1] and [2, 3],
and a zero-length request against a nonempty source. -/
theorem read_n_bytes_chunk_independence_witness :
    read_n_bytes (.ok ()) [.chunk [1], .chunk [2, 3]] 3 = .success [1, 2, 3]
    ∧ read_n_bytes (.ok ()) [.chunk [9]] 0 = .success [] :=
  ⟨(read_n_bytes_chunk_independence [1, 2, 3] [[1], [2, 3]] 3 (by decide) (by decide)
      (by decide)).1,
    (read_n_bytes_chunk_independence [1, 2, 3] [[1], [2, 3]] 3 (by decide) (by decide)
      (by decide)).2 [.chunk [9]]⟩

/-- C3 counterexample: a source whose read itself fails with the
UnexpectedEof-kind error value is surfaced unchanged, so read_n_bytes
fails with the distinguished unexpected-end-of-stream error although no
read returned zero bytes. -/
theorem read_n_bytes_eof_counterexample :
    read_n_bytes (.ok ()) [.ioErr eofError] 1 = .failure eofError
    ∧ hitsEmptyRead [.ioErr eofError] 1 0 = false := by
  decide

/-- C3 (amended): for N > 0, provided neither the readiness wait nor any
read of the source itself fails with an UnexpectedEof-kind error,
read_n_bytes fails with the distinguished unexpected-end-of-stream error
exactly when some read returns zero bytes before N bytes have been
accumulated (and never a generic error in that case); every other failure
surfaces the error of the failing source operation itself to the caller. -/
theorem read_n_bytes_eof_distinction (readable : Except IOError Unit)
    (events : List ReadEvent) (N : Nat) (_hN : 0 < N)
    (hr : ∀ e, readable = .error e → e.kind ≠ ErrorKind.unexpectedEof)
    (hs : ∀ e, ReadEvent.ioErr e ∈ events → e.kind ≠ ErrorKind.unexpectedEof) :
    (read_n_bytes readable events N = .failure eofError ↔
      readable = .ok () ∧ hitsEmptyRead events N 0 = true)
    ∧ ∀ e, read_n_bytes readable events N = .failure e → e ≠ eofError →
        readable = .error e ∨ ReadEvent.ioErr e ∈ events := by
  constructor
  · cases readable with
    | error e0 =>
      simp only [read_n_bytes]
      constructor
      · intro hf
        injection hf with h0
        exact absurd (by rw [h0]; rfl) (hr e0 rfl)
      · rintro ⟨h1, _⟩
        exact absurd h1 (by simp)
    | ok u =>
      simp only [read_n_bytes]
      rw [readLoop_eof_iff events N 0 [] hs]
      simp
  · intro e hf hne
    cases readable with
    | error e0 =>
      simp only [read_n_bytes] at hf
      injection hf with h0
      exact Or.inl (by rw [h0])
    | ok u =>
      simp only [read_n_bytes] at hf
      rcases readLoop_failure_source events N 0 [] e hf with h1 | h1
      · exact absurd h1 hne
      · exact Or.inr h1

/-- C3 witness: a source delivering one byte and then closing, against a
request for 3 bytes. -/
theorem read_n_bytes_eof_distinction_witness :
    read_n_bytes (.ok ()) [.chunk [7], .chunk []] 3 = .failure eofError ↔
      (Except.ok () : Except IOError Unit) = .ok ()
        ∧ hitsEmptyRead [.chunk [7], .chunk []] 3 0 = true :=
  (read_n_bytes_eof_distinction (.ok ()) [.chunk [7], .chunk []] 3 (by decide)
    (fun e h => by simp at h) (fun e h => by simp at h)).1

/-- C4 counterexample: in the WaitForObject state the EOF arm does not
return (session.rs lines 355-360), so after dropping the read half and
stopping, the handler still falls through to line 368 and casts one more
WaitForObject message: observing EOF is not free of further scheduled
state transitions. -/
theorem reader_eof_still_casts_counterexample :
    SessionReader.handle (fun _ => none) .waitForObject true ⟨.ok (), [.chunk []]⟩ =
      some ⟨[.waitForObject], [], some "channel_closed", false⟩
    ∧ ([SessionReaderMessage.waitForObject] : List SessionReaderMessage) ≠ [] := by
  decide

/-- C4 (amended): on an UnexpectedEof-kind read failure the reader drops
its read half and stops with reason "channel_closed" in both states, casts
nothing to the session, and performs no further read in the invocation; in
the ReadObject state the handler returns immediately and schedules nothing,
while in the WaitForObject state it still casts one further WaitForObject
message (session.rs line 368), which is handled, if at all, by the arm for
an absent reader, which performs no read. -/
theorem reader_eof_channel_closed (decode : List Nat → Option NetworkMessage)
    (env : ReaderEnv) (e : IOError) (he : e.kind = ErrorKind.unexpectedEof) :
    (read_n_bytes env.readable env.events 8 = .failure e →
      SessionReader.handle decode .waitForObject true env =
        some ⟨[.waitForObject], [], some "channel_closed", false⟩)
    ∧ (∀ L, read_n_bytes env.readable env.events L = .failure e →
        SessionReader.handle decode (.readObject L) true env =
          some ⟨[], [], some "channel_closed", false⟩)
    ∧ SessionReader.handle decode .waitForObject false env =
        some ⟨[.waitForObject], [], none, false⟩ := by
  refine ⟨fun h => ?_, fun L h => ?_, rfl⟩
  · simp [SessionReader.handle, h, he]
  · simp [SessionReader.handle, h, he]

/-- C4 witness: the ReadObject(5) state over a source that closes
immediately. -/
theorem reader_eof_channel_closed_witness :
    SessionReader.handle (fun _ => none) (.readObject 5) true ⟨.ok (), [.chunk []]⟩ =
      some ⟨[], [], some "channel_closed", false⟩ :=
  (reader_eof_channel_closed (fun _ => none) ⟨.ok (), [.chunk []]⟩ eofError rfl).2.1 5
    (by decide)

/-- C5: a frame whose payload bytes are read successfully but fail to
decode produces no ObjectAvailable cast, does not stop the reader, keeps
the read half, and transitions back to WaitForObject; and a next frame
whose payload decodes successfully is cast to the session exactly once. -/
theorem reader_decode_failure_resilience (decode : List Nat → Option NetworkMessage)
    (env1 env2 : ReaderEnv) (L1 L2 : Nat) (buf1 buf2 : List Nat) (m : NetworkMessage)
    (h1 : read_n_bytes env1.readable env1.events L1 = .success buf1)
    (hd1 : decode buf1 = none)
    (h2 : read_n_bytes env2.readable env2.events L2 = .success buf2)
    (hd2 : decode buf2 = some m) :
    SessionReader.handle decode (.readObject L1) true env1 =
      some ⟨[.waitForObject], [], none, true⟩
    ∧ SessionReader.handle decode (.readObject L2) true env2 =
      some ⟨[.waitForObject], [.objectAvailable m], none, true⟩ := by
  constructor
  · simp [SessionReader.handle, h1, hd1]
  · simp [SessionReader.handle, h2, hd2]

/-- C5 witness: a decoder accepting exactly the payload [9]; the frame
with payload [1, 2] is discarded and the next frame with payload [9] is
delivered once. -/
theorem reader_decode_failure_resilience_witness :
    SessionReader.handle (fun bs => if bs = [9] then some ⟨[9]⟩ else none)
        (.readObject 2) true ⟨.ok (), [.chunk [1, 2]]⟩ =
      some ⟨[.waitForObject], [], none, true⟩
    ∧ SessionReader.handle (fun bs => if bs = [9] then some ⟨[9]⟩ else none)
        (.readObject 1) true ⟨.ok (), [.chunk [9]]⟩ =
      some ⟨[.waitForObject], [.objectAvailable ⟨[9]⟩], none, true⟩ :=
  reader_decode_failure_resilience (fun bs => if bs = [9] then some ⟨[9]⟩ else none)
    ⟨.ok (), [.chunk [1, 2]]⟩ ⟨.ok (), [.chunk [9]]⟩ 2 1 [1, 2] [9] ⟨[9]⟩
    (by decide) (by decide) (by decide) (by decide)

/-- C6: when the 8-byte length-prefix write fails, the writer logs a
warning and takes no further action for the message: the only IO steps are
the readiness wait and the failed prefix write (the payload write and the
flush are never attempted, whatever their outcomes would have been), no
stop is requested, no unwrap panics, and the write half stays present, so
subsequent WriteObject requests are still processed. -/
theorem writer_length_write_failure (msg : NetworkMessage) (e : IOError)
    (pw fl : Except IOError Unit) :
    SessionWriter.handle msg true ⟨.ok (), .error e, pw, fl⟩ =
      ⟨[.waitedWritable,
        .writeFailed (u64ToBeBytes (encode_length_delimited_to_vec msg).length) e],
        none, none, true⟩ := rfl

/-- C7: when the prefix write succeeds and the payload write fails, the
writer logs and stops itself with reason "channel_closed"; no flush is
attempted (whatever its outcome would have been) and the message is
processed no further. -/
theorem writer_payload_write_failure (msg : NetworkMessage) (e : IOError)
    (fl : Except IOError Unit) :
    SessionWriter.handle msg true ⟨.ok (), .ok (), .error e, fl⟩ =
      ⟨[.waitedWritable, .wrote (u64ToBeBytes (encode_length_delimited_to_vec msg).length),
        .writeFailed (encode_length_delimited_to_vec msg) e],
        some "channel_closed", none, true⟩ := rfl

/-- C8 counterexample: a non-EOF read error in state ReadObject(5) falls
through to the trailing cast of WaitForObject (session.rs lines 400-407):
the reader transitions back to WaitForObject instead of retrying
ReadObject(5) with the same length. -/
theorem reader_io_error_counterexample :
    SessionReader.handle (fun _ => none) (.readObject 5) true
        ⟨.ok (), [.ioErr ⟨.other "connreset", "reset"⟩]⟩ =
      some ⟨[.waitForObject], [], none, true⟩
    ∧ ([SessionReaderMessage.waitForObject] : List SessionReaderMessage) ≠
        [.readObject 5] := by
  decide

/-- C8 (amended): on a non-EOF read error the reader logs and keeps
running with the read half intact, retrying indefinitely and never
stopping: an error in WaitForObject re-enters WaitForObject, and an error
in ReadObject(L) transitions back to WaitForObject, abandoning the length
L rather than retrying it. -/
theorem reader_io_error_retry (decode : List Nat → Option NetworkMessage)
    (env : ReaderEnv) (e : IOError) (he : e.kind ≠ ErrorKind.unexpectedEof) :
    (read_n_bytes env.readable env.events 8 = .failure e →
      SessionReader.handle decode .waitForObject true env =
        some ⟨[.waitForObject], [], none, true⟩)
    ∧ ∀ L, read_n_bytes env.readable env.events L = .failure e →
        SessionReader.handle decode (.readObject L) true env =
          some ⟨[.waitForObject], [], none, true⟩ := by
  constructor
  · intro h
    simp [SessionReader.handle, h, he]
  · intro L h
    simp [SessionReader.handle, h, he]

/-- C8 witness: a generic io error surfaced by the readiness wait, in both
reader states. -/
theorem reader_io_error_retry_witness :
    SessionReader.handle (fun _ => none) .waitForObject true
        ⟨.error ⟨.other "io", "would block"⟩, []⟩ =
      some ⟨[.waitForObject], [], none, true⟩
    ∧ SessionReader.handle (fun _ => none) (.readObject 7) true
        ⟨.error ⟨.other "io", "would block"⟩, []⟩ =
      some ⟨[.waitForObject], [], none, true⟩ :=
  ⟨(reader_io_error_retry (fun _ => none) ⟨.error ⟨.other "io", "would block"⟩, []⟩
      ⟨.other "io", "would block"⟩ (by decide)).1 (by decide),
    (reader_io_error_retry (fun _ => none) ⟨.error ⟨.other "io", "would block"⟩, []⟩
      ⟨.other "io", "would block"⟩ (by decide)).2 7 (by decide)⟩

/-- C9: for every supervision event about a child, whichever child it is
(reader, writer, or an unknown id), a panic stops the Session with reason
"child_panic" and a termination (normal or abnormal) stops it with reason
"child_terminate", unconditionally. -/
theorem session_child_failure_stops (readerId writerId childId : Nat)
    (panicInfo : String) (exitReason : Option String) :
    (Session.handle_supervisor_evt readerId writerId
        (.actorPanicked childId panicInfo)).stopReason = some "child_panic"
    ∧ (Session.handle_supervisor_evt readerId writerId
        (.actorTerminated childId exitReason)).stopReason = some "child_terminate" :=
  ⟨rfl, rfl⟩

/-- C10: the writer calls unwrap on the writable() readiness wait and on
the post-payload flush: processing WriteObject with an open writer panics
exactly when the readiness wait fails, or when both writes succeed and the
flush fails — and in no other case; when it panics it has not requested a
stop, so the failure reaches the Session only as a child-panic supervision
event. -/
theorem writer_unwrap_panic_iff (msg : NetworkMessage) (env : WriterEnv) :
    ((SessionWriter.handle msg true env).panicked ≠ none ↔
      env.writable ≠ .ok () ∨
        (env.writable = .ok () ∧ env.lengthWrite = .ok ()
          ∧ env.payloadWrite = .ok () ∧ env.flush ≠ .ok ()))
    ∧ ((SessionWriter.handle msg true env).panicked ≠ none →
        (SessionWriter.handle msg true env).stopReason = none) := by
  obtain ⟨w, lw, pw, f⟩ := env
  cases w <;> cases lw <;> cases pw <;> cases f <;>
    simp [SessionWriter.handle]

/-- C10 witness: a failing readiness wait panics without requesting a
stop. -/
theorem writer_unwrap_panic_iff_witness :
    (SessionWriter.handle ⟨[5]⟩ true
        ⟨.error ⟨.other "io", "poll error"⟩, .ok (), .ok (), .ok ()⟩).stopReason = none :=
  (writer_unwrap_panic_iff ⟨[5]⟩
      ⟨.error ⟨.other "io", "poll error"⟩, .ok (), .ok (), .ok ()⟩).2 (by decide)

end RactorSession
